import Mathlib

/-!
Shallow embedding of the Maneuver match-validation and conflict-resolution core.

Sources embedded:
- `src/lib/matchValidationUtils.ts` (aggregation, severity classification,
  alliance comparison, match validation)
- the 2025 game-constants module (`calculateMatchPoints` and friends)
- `src/lib/uploadHandlers/scoutingDataUploadHandler.ts` (auto-replace lookup)
- the fountain-data utilities (`findExistingEntry`)
- the conflict decision matrix of `docs/CONFLICT_RESOLUTION_SPEC.md`
  (the `detectConflicts` implementation itself is not among the sources and is
  modelled from the spec where noted).

JavaScript numbers are modelled as rationals (`ℚ`); list/discrepancy counts are
naturals. `Array.prototype.reduce((sum, e) => sum + f(e), 0)` is modelled as
`(l.map f).sum`, and `Array.prototype.filter(p).length` as `(l.filter p).length`.
-/

namespace Maneuver

/-- JS `Math.round` for non-negative inputs: round half toward plus infinity. -/
def jsRound (q : ℚ) : ℚ := ((⌊q + 1/2⌋ : ℤ) : ℚ)

/-- Sum of a numeric projection over a list, the embedding of a JS
`reduce((sum, e) => sum + f(e), 0)`. -/
def jsSum {α : Type} (l : List α) (f : α → ℚ) : ℚ := (l.map f).sum

-- ===========================================================================
-- Severity classification (`calculateSeverity`, `createDiscrepancy`)
-- ===========================================================================

/-- `DiscrepancySeverity` from `matchValidationTypes.ts`:
`'none' | 'minor' | 'warning' | 'critical'`. -/
inductive DiscrepancySeverity : Type
  | none
  | minor
  | warning
  | critical
deriving DecidableEq, Repr

/-- The ordinal used by the spec for "none < minor < warning < critical". -/
def sevRank : DiscrepancySeverity → ℕ
  | DiscrepancySeverity.none => 0
  | DiscrepancySeverity.minor => 1
  | DiscrepancySeverity.warning => 2
  | DiscrepancySeverity.critical => 3

/-- `DataCategory` values used by the comparator:
`'auto-coral' | 'teleop-coral' | 'algae' | 'mobility' | 'endgame'`. -/
inductive DataCategory : Type
  | autoCoral
  | teleopCoral
  | algae
  | mobility
  | endgame
deriving DecidableEq, Repr

/-- One threshold set: absolute and percentage cutoffs for each severity
(the `thresholds` record of `ValidationConfig`). -/
structure Thresholds : Type where
  criticalAbsolute : ℚ
  warningAbsolute : ℚ
  minorAbsolute : ℚ
  critical : ℚ
  warning : ℚ
  minor : ℚ

/-- `ValidationConfig` fields read by `matchValidationUtils.ts`:
a default threshold set, optional category-specific threshold sets,
category toggles, and the two integer escalation thresholds. -/
structure ValidationConfig : Type where
  thresholds : Thresholds
  categoryThresholds : DataCategory → Option Thresholds
  checkAutoScoring : Bool
  checkTeleopScoring : Bool
  checkEndgame : Bool
  autoFlagThreshold : ℕ
  requireReScoutThreshold : ℕ

/-- The threshold selection at the top of `calculateSeverity`:
`(category && config.categoryThresholds?.[category]) || config.thresholds`. -/
def selectThresholds (config : ValidationConfig) (category : Option DataCategory) :
    Thresholds :=
  match category with
  | Option.some c => (config.categoryThresholds c).getD config.thresholds
  | Option.none => config.thresholds

/-- `calculateSeverity` from `matchValidationUtils.ts`, line for line:
absolute thresholds are checked first (critical, warning, minor); then the
guard `difference < thresholds.warningAbsolute` forces `none`; the remaining
percentage checks follow exactly as in the source. -/
def calculateSeverity (difference percentDiff : ℚ) (config : ValidationConfig)
    (category : Option DataCategory) : DiscrepancySeverity :=
  let thresholds := selectThresholds config category
  if difference ≥ thresholds.criticalAbsolute then DiscrepancySeverity.critical
  else if difference ≥ thresholds.warningAbsolute then DiscrepancySeverity.warning
  else if difference ≥ thresholds.minorAbsolute then DiscrepancySeverity.minor
  else if difference < thresholds.warningAbsolute then DiscrepancySeverity.none
  else if percentDiff ≥ thresholds.critical then DiscrepancySeverity.critical
  else if percentDiff ≥ thresholds.warning then DiscrepancySeverity.warning
  else if percentDiff ≥ thresholds.minor then DiscrepancySeverity.minor
  else DiscrepancySeverity.none

/-- `Discrepancy` from `matchValidationTypes.ts` (one flagged field-level delta). -/
structure Discrepancy : Type where
  category : DataCategory
  field : String
  scoutedValue : ℚ
  tbaValue : ℚ
  difference : ℚ
  percentDiff : ℚ
  severity : DiscrepancySeverity
  message : String
deriving DecidableEq, Repr

/-- `createDiscrepancy` from `matchValidationUtils.ts`: absolute difference,
percentage difference against the larger of the two values (0 when both are 0),
severity via `calculateSeverity`; returns nothing when the severity is `none`. -/
def createDiscrepancy (category : DataCategory) (field : String)
    (scoutedValue tbaValue : ℚ) (config : ValidationConfig) : Option Discrepancy :=
  let difference := |scoutedValue - tbaValue|
  let maxv := max scoutedValue tbaValue
  let percentDiff := if maxv = 0 then 0 else difference / maxv * 100
  let severity := calculateSeverity difference percentDiff config (Option.some category)
  if severity = DiscrepancySeverity.none then Option.none
  else
    let sign := if scoutedValue > tbaValue then "+" else "-"
    Option.some
      { category := category
        field := field
        scoutedValue := scoutedValue
        tbaValue := tbaValue
        difference := difference
        percentDiff := jsRound (percentDiff * 10) / 10
        severity := severity
        message := field ++ ": Scouted " ++ toString scoutedValue ++ ", TBA " ++
          toString tbaValue ++ " (" ++ sign ++ toString difference ++ ", " ++
          toString (jsRound percentDiff) ++ "%)" }

/-- The percentage difference as computed inside `createDiscrepancy`. -/
def percentDiffJS (scoutedValue tbaValue : ℚ) : ℚ :=
  let difference := |scoutedValue - tbaValue|
  let maxv := max scoutedValue tbaValue
  if maxv = 0 then 0 else difference / maxv * 100

-- ===========================================================================
-- Scouting entries and alliance aggregation
-- ===========================================================================

/-- The fields of `ScoutingEntry` read by the validation engine. Optional
numeric fields are totalized: the source guards every read with `|| 0`. -/
structure ScoutingEntry : Type where
  matchNumber : String
  alliance : String
  scoutName : String
  selectTeam : String
  eventName : String
  autoCoralPlaceL1Count : ℚ
  autoCoralPlaceL2Count : ℚ
  autoCoralPlaceL3Count : ℚ
  autoCoralPlaceL4Count : ℚ
  teleopCoralPlaceL1Count : ℚ
  teleopCoralPlaceL2Count : ℚ
  teleopCoralPlaceL3Count : ℚ
  teleopCoralPlaceL4Count : ℚ
  autoAlgaePlaceNetShot : ℚ
  autoAlgaePlaceProcessor : ℚ
  teleopAlgaePlaceNetShot : ℚ
  teleopAlgaePlaceProcessor : ℚ
  autoPassedStartLine : Bool
  deepClimbAttempted : Bool
  shallowClimbAttempted : Bool
  parkAttempted : Bool
  climbFailed : Bool
  brokeDown : Bool
  playedDefense : Bool

/-- `AllianceStats` from `matchValidationUtils.ts` (display-path aggregate). -/
structure AllianceStats : Type where
  autoCoralL1 : ℚ
  autoCoralL2 : ℚ
  autoCoralL3 : ℚ
  autoCoralL4 : ℚ
  autoCoralTotal : ℚ
  teleopCoralL1 : ℚ
  teleopCoralL2 : ℚ
  teleopCoralL3 : ℚ
  teleopCoralL4 : ℚ
  teleopCoralTotal : ℚ
  totalCoralL1 : ℚ
  totalCoralL2 : ℚ
  totalCoralL3 : ℚ
  totalCoralL4 : ℚ
  totalCoral : ℚ
  autoAlgaeNet : ℚ
  autoAlgaeProcessor : ℚ
  autoAlgaeTotal : ℚ
  teleopAlgaeNet : ℚ
  teleopAlgaeProcessor : ℚ
  teleopAlgaeTotal : ℚ
  totalAlgaeNet : ℚ
  totalAlgaeProcessor : ℚ
  totalAlgae : ℚ
  deepClimbs : ℚ
  shallowClimbs : ℚ
  parks : ℚ
  noEndgame : ℚ
  climbFailures : ℚ
  teamsPassedStartLine : ℚ
  breakdowns : ℚ
  defensePlayedCount : ℚ

/-- `createEmptyAllianceStats` from `matchValidationUtils.ts`. -/
def createEmptyAllianceStats : AllianceStats :=
  { autoCoralL1 := 0, autoCoralL2 := 0, autoCoralL3 := 0, autoCoralL4 := 0
    autoCoralTotal := 0
    teleopCoralL1 := 0, teleopCoralL2 := 0, teleopCoralL3 := 0, teleopCoralL4 := 0
    teleopCoralTotal := 0
    totalCoralL1 := 0, totalCoralL2 := 0, totalCoralL3 := 0, totalCoralL4 := 0
    totalCoral := 0
    autoAlgaeNet := 0, autoAlgaeProcessor := 0, autoAlgaeTotal := 0
    teleopAlgaeNet := 0, teleopAlgaeProcessor := 0, teleopAlgaeTotal := 0
    totalAlgaeNet := 0, totalAlgaeProcessor := 0, totalAlgae := 0
    deepClimbs := 0, shallowClimbs := 0, parks := 0, noEndgame := 0
    climbFailures := 0
    teamsPassedStartLine := 0
    breakdowns := 0, defensePlayedCount := 0 }

/-- `calculateAllianceStats` from `matchValidationUtils.ts` (display path):
numeric counters are summed, boolean flags are counted, and the endgame counts
come from the bare attempt flags (no `climbFailed` filtering). -/
def calculateAllianceStats (entries : List ScoutingEntry) : AllianceStats :=
  if entries.length = 0 then createEmptyAllianceStats
  else
    { autoCoralL1 := jsSum entries (·.autoCoralPlaceL1Count)
      autoCoralL2 := jsSum entries (·.autoCoralPlaceL2Count)
      autoCoralL3 := jsSum entries (·.autoCoralPlaceL3Count)
      autoCoralL4 := jsSum entries (·.autoCoralPlaceL4Count)
      autoCoralTotal := jsSum entries (fun e =>
        e.autoCoralPlaceL1Count + e.autoCoralPlaceL2Count +
        e.autoCoralPlaceL3Count + e.autoCoralPlaceL4Count)
      teleopCoralL1 := jsSum entries (·.teleopCoralPlaceL1Count)
      teleopCoralL2 := jsSum entries (·.teleopCoralPlaceL2Count)
      teleopCoralL3 := jsSum entries (·.teleopCoralPlaceL3Count)
      teleopCoralL4 := jsSum entries (·.teleopCoralPlaceL4Count)
      teleopCoralTotal := jsSum entries (fun e =>
        e.teleopCoralPlaceL1Count + e.teleopCoralPlaceL2Count +
        e.teleopCoralPlaceL3Count + e.teleopCoralPlaceL4Count)
      totalCoralL1 := jsSum entries (fun e =>
        e.autoCoralPlaceL1Count + e.teleopCoralPlaceL1Count)
      totalCoralL2 := jsSum entries (fun e =>
        e.autoCoralPlaceL2Count + e.teleopCoralPlaceL2Count)
      totalCoralL3 := jsSum entries (fun e =>
        e.autoCoralPlaceL3Count + e.teleopCoralPlaceL3Count)
      totalCoralL4 := jsSum entries (fun e =>
        e.autoCoralPlaceL4Count + e.teleopCoralPlaceL4Count)
      totalCoral := jsSum entries (fun e =>
        e.autoCoralPlaceL1Count + e.autoCoralPlaceL2Count +
        e.autoCoralPlaceL3Count + e.autoCoralPlaceL4Count +
        e.teleopCoralPlaceL1Count + e.teleopCoralPlaceL2Count +
        e.teleopCoralPlaceL3Count + e.teleopCoralPlaceL4Count)
      autoAlgaeNet := jsSum entries (·.autoAlgaePlaceNetShot)
      autoAlgaeProcessor := jsSum entries (·.autoAlgaePlaceProcessor)
      autoAlgaeTotal := jsSum entries (fun e =>
        e.autoAlgaePlaceNetShot + e.autoAlgaePlaceProcessor)
      teleopAlgaeNet := jsSum entries (·.teleopAlgaePlaceNetShot)
      teleopAlgaeProcessor := jsSum entries (·.teleopAlgaePlaceProcessor)
      teleopAlgaeTotal := jsSum entries (fun e =>
        e.teleopAlgaePlaceNetShot + e.teleopAlgaePlaceProcessor)
      totalAlgaeNet := jsSum entries (fun e =>
        e.autoAlgaePlaceNetShot + e.teleopAlgaePlaceNetShot)
      totalAlgaeProcessor := jsSum entries (fun e =>
        e.autoAlgaePlaceProcessor + e.teleopAlgaePlaceProcessor)
      totalAlgae := jsSum entries (fun e =>
        e.autoAlgaePlaceNetShot + e.autoAlgaePlaceProcessor +
        e.teleopAlgaePlaceNetShot + e.teleopAlgaePlaceProcessor)
      deepClimbs := ((entries.filter (·.deepClimbAttempted)).length : ℚ)
      shallowClimbs := ((entries.filter (·.shallowClimbAttempted)).length : ℚ)
      parks := ((entries.filter (·.parkAttempted)).length : ℚ)
      noEndgame := ((entries.filter (fun e =>
        !e.deepClimbAttempted && !e.shallowClimbAttempted && !e.parkAttempted)).length : ℚ)
      climbFailures := ((entries.filter (·.climbFailed)).length : ℚ)
      teamsPassedStartLine := ((entries.filter (·.autoPassedStartLine)).length : ℚ)
      breakdowns := ((entries.filter (·.brokeDown)).length : ℚ)
      defensePlayedCount := ((entries.filter (·.playedDefense)).length : ℚ) }

/-- Alliance color selector. -/
inductive Alliance : Type
  | red
  | blue
deriving DecidableEq, Repr

/-- `ScoutedAllianceData` from `matchValidationTypes.ts`
(comparison-path aggregate). -/
structure ScoutedAllianceData : Type where
  alliance : Alliance
  matchNumber : String
  eventName : String
  teams : List String
  scoutNames : List String
  autoCoralL1 : ℚ
  autoCoralL2 : ℚ
  autoCoralL3 : ℚ
  autoCoralL4 : ℚ
  autoCoralTotal : ℚ
  autoAlgaeNet : ℚ
  autoAlgaeProcessor : ℚ
  autoAlgaeTotal : ℚ
  autoMobility : ℚ
  teleopCoralL1 : ℚ
  teleopCoralL2 : ℚ
  teleopCoralL3 : ℚ
  teleopCoralL4 : ℚ
  teleopCoralTotal : ℚ
  teleopAlgaeNet : ℚ
  teleopAlgaeProcessor : ℚ
  teleopAlgaeTotal : ℚ
  deepClimbs : ℚ
  shallowClimbs : ℚ
  parks : ℚ
  climbFails : ℚ
  brokeDown : ℚ
  playedDefense : ℚ
  missingTeams : List String
  scoutedTeamsCount : ℕ

/-- `aggregateScoutedAllianceData` from `matchValidationUtils.ts`
(comparison path). The `...Total` fields are written as the sums the source
assigns right after building the record. Note the endgame counts: a climb only
counts as a deep/shallow climb when `climbFailed` is not set. -/
def aggregateScoutedAllianceData (scoutedEntries : List ScoutingEntry)
    (alliance : Alliance) (matchNumber eventName : String)
    (expectedTeams : List String) : ScoutedAllianceData :=
  let teams := scoutedEntries.map (·.selectTeam)
  { alliance := alliance
    matchNumber := matchNumber
    eventName := eventName
    teams := teams
    scoutNames := scoutedEntries.map (·.scoutName)
    autoCoralL1 := jsSum scoutedEntries (·.autoCoralPlaceL1Count)
    autoCoralL2 := jsSum scoutedEntries (·.autoCoralPlaceL2Count)
    autoCoralL3 := jsSum scoutedEntries (·.autoCoralPlaceL3Count)
    autoCoralL4 := jsSum scoutedEntries (·.autoCoralPlaceL4Count)
    autoCoralTotal :=
      jsSum scoutedEntries (·.autoCoralPlaceL1Count) +
      jsSum scoutedEntries (·.autoCoralPlaceL2Count) +
      jsSum scoutedEntries (·.autoCoralPlaceL3Count) +
      jsSum scoutedEntries (·.autoCoralPlaceL4Count)
    autoAlgaeNet := jsSum scoutedEntries (·.autoAlgaePlaceNetShot)
    autoAlgaeProcessor := jsSum scoutedEntries (·.autoAlgaePlaceProcessor)
    autoAlgaeTotal :=
      jsSum scoutedEntries (·.autoAlgaePlaceNetShot) +
      jsSum scoutedEntries (·.autoAlgaePlaceProcessor)
    autoMobility := jsSum scoutedEntries (fun e =>
      if e.autoPassedStartLine then 1 else 0)
    teleopCoralL1 := jsSum scoutedEntries (·.teleopCoralPlaceL1Count)
    teleopCoralL2 := jsSum scoutedEntries (·.teleopCoralPlaceL2Count)
    teleopCoralL3 := jsSum scoutedEntries (·.teleopCoralPlaceL3Count)
    teleopCoralL4 := jsSum scoutedEntries (·.teleopCoralPlaceL4Count)
    teleopCoralTotal :=
      jsSum scoutedEntries (·.teleopCoralPlaceL1Count) +
      jsSum scoutedEntries (·.teleopCoralPlaceL2Count) +
      jsSum scoutedEntries (·.teleopCoralPlaceL3Count) +
      jsSum scoutedEntries (·.teleopCoralPlaceL4Count)
    teleopAlgaeNet := jsSum scoutedEntries (·.teleopAlgaePlaceNetShot)
    teleopAlgaeProcessor := jsSum scoutedEntries (·.teleopAlgaePlaceProcessor)
    teleopAlgaeTotal :=
      jsSum scoutedEntries (·.teleopAlgaePlaceNetShot) +
      jsSum scoutedEntries (·.teleopAlgaePlaceProcessor)
    deepClimbs := jsSum scoutedEntries (fun e =>
      if e.deepClimbAttempted && !e.climbFailed then 1 else 0)
    shallowClimbs := jsSum scoutedEntries (fun e =>
      if e.shallowClimbAttempted && !e.climbFailed then 1 else 0)
    parks := jsSum scoutedEntries (fun e => if e.parkAttempted then 1 else 0)
    climbFails := jsSum scoutedEntries (fun e => if e.climbFailed then 1 else 0)
    brokeDown := jsSum scoutedEntries (fun e => if e.brokeDown then 1 else 0)
    playedDefense := jsSum scoutedEntries (fun e => if e.playedDefense then 1 else 0)
    missingTeams := expectedTeams.filter (fun t => !(teams.contains t))
    scoutedTeamsCount := scoutedEntries.length }

-- ===========================================================================
-- TBA official data extraction
-- ===========================================================================

/-- One reef row block of the TBA score breakdown
(`autoReef` / `teleopReef`). -/
structure TBAReef : Type where
  trough : ℚ
  tba_botRowCount : ℚ
  tba_midRowCount : ℚ
  tba_topRowCount : ℚ

/-- The per-alliance TBA score-breakdown fields read by
`extractTBAAllianceData`. -/
structure TBABreakdown : Type where
  autoLineRobot1 : String
  autoLineRobot2 : String
  autoLineRobot3 : String
  endGameRobot1 : String
  endGameRobot2 : String
  endGameRobot3 : String
  autoReef : TBAReef
  teleopReef : TBAReef
  autoCoralCount : ℚ
  teleopCoralCount : ℚ
  autoCoralPoints : ℚ
  teleopCoralPoints : ℚ
  netAlgaeCount : ℚ
  wallAlgaeCount : ℚ
  algaePoints : ℚ
  autoMobilityPoints : ℚ
  endGameBargePoints : ℚ
  autoPoints : ℚ
  teleopPoints : ℚ
  foulPoints : ℚ
  autoBonusAchieved : Bool
  coralBonusAchieved : Bool
  bargeBonusAchieved : Bool
  foulCount : ℚ
  techFoulCount : ℚ

/-- One side of `TBAMatchData.alliances`. -/
structure TBAAllianceInfo : Type where
  team_keys : List String
  score : ℚ

/-- `TBAMatchData` as read by `validateMatch` / `extractTBAAllianceData`:
the alliances block, and an optional score breakdown with a red and a blue
side. -/
structure TBAMatchData : Type where
  key : String
  comp_level : String
  redInfo : TBAAllianceInfo
  blueInfo : TBAAllianceInfo
  score_breakdown : Option (TBABreakdown × TBABreakdown)

/-- The alliances entry for one color. -/
def TBAMatchData.allianceInfo (m : TBAMatchData) : Alliance → TBAAllianceInfo
  | Alliance.red => m.redInfo
  | Alliance.blue => m.blueInfo

/-- The score-breakdown entry for one color (`score_breakdown?.[alliance]`). -/
def TBAMatchData.breakdownFor (m : TBAMatchData) (a : Alliance) :
    Option TBABreakdown :=
  m.score_breakdown.map (fun sb => match a with
    | Alliance.red => sb.1
    | Alliance.blue => sb.2)

/-- Modelled from the spec: `extractTeamNumber` lives in `tbaUtils.ts`, which
is not among the available sources. TBA team keys carry an `frc` tag before
the number (the test-data generator in the sources peels it off with
`teamKey.replace('frc', '')`), so the model removes a leading `frc`. -/
def extractTeamNumber (teamKey : String) : String :=
  if teamKey.startsWith "frc" then teamKey.drop 3 else teamKey

/-- `TBAAllianceData` from `matchValidationTypes.ts`
(official data normalized for one alliance). -/
structure TBAAllianceData : Type where
  alliance : Alliance
  teams : List String
  totalPoints : ℚ
  autoPoints : ℚ
  teleopPoints : ℚ
  foulPoints : ℚ
  autoCoralL1 : ℚ
  autoCoralL2 : ℚ
  autoCoralL3 : ℚ
  autoCoralL4 : ℚ
  autoCoralTotal : ℚ
  autoCoralPoints : ℚ
  teleopCoralL1 : ℚ
  teleopCoralL2 : ℚ
  teleopCoralL3 : ℚ
  teleopCoralL4 : ℚ
  teleopCoralTotal : ℚ
  teleopCoralPoints : ℚ
  algaeNet : ℚ
  algaeProcessor : ℚ
  algaeTotal : ℚ
  algaePoints : ℚ
  mobilityCount : ℚ
  mobilityPoints : ℚ
  deepClimbs : ℚ
  shallowClimbs : ℚ
  parks : ℚ
  endgamePoints : ℚ
  autoBonusAchieved : Bool
  coralBonusAchieved : Bool
  bargeBonusAchieved : Bool
  foulCount : ℚ
  techFoulCount : ℚ

/-- `extractTBAAllianceData` from `matchValidationUtils.ts`: the
missing-breakdown fallback keeps only the raw final score; otherwise per-level
reef counts, combined algae, mobility from the `autoLineRobotN` flags and
endgame from the `endGameRobotN` states. -/
def extractTBAAllianceData (tbaMatch : TBAMatchData) (alliance : Alliance) :
    TBAAllianceData :=
  let allianceData := tbaMatch.allianceInfo alliance
  match tbaMatch.breakdownFor alliance with
  | Option.none =>
      { alliance := alliance
        teams := allianceData.team_keys.map extractTeamNumber
        totalPoints := allianceData.score
        autoPoints := 0, teleopPoints := 0, foulPoints := 0
        autoCoralL1 := 0, autoCoralL2 := 0, autoCoralL3 := 0, autoCoralL4 := 0
        autoCoralTotal := 0, autoCoralPoints := 0
        teleopCoralL1 := 0, teleopCoralL2 := 0, teleopCoralL3 := 0
        teleopCoralL4 := 0, teleopCoralTotal := 0, teleopCoralPoints := 0
        algaeNet := 0, algaeProcessor := 0, algaeTotal := 0, algaePoints := 0
        mobilityCount := 0, mobilityPoints := 0
        deepClimbs := 0, shallowClimbs := 0, parks := 0, endgamePoints := 0
        autoBonusAchieved := false, coralBonusAchieved := false
        bargeBonusAchieved := false
        foulCount := 0, techFoulCount := 0 }
  | Option.some breakdown =>
      let mobilityCount : ℚ :=
        ([if breakdown.autoLineRobot1 = "Yes" then (1 : ℚ) else 0,
          if breakdown.autoLineRobot2 = "Yes" then 1 else 0,
          if breakdown.autoLineRobot3 = "Yes" then 1 else 0]).sum
      let endgameStates :=
        [breakdown.endGameRobot1, breakdown.endGameRobot2, breakdown.endGameRobot3]
      let deepClimbs : ℚ := ((endgameStates.filter (· = "DeepCage")).length : ℚ)
      let shallowClimbs : ℚ := ((endgameStates.filter (· = "ShallowCage")).length : ℚ)
      let parks : ℚ := ((endgameStates.filter (· = "Parked")).length : ℚ)
      { alliance := alliance
        teams := allianceData.team_keys.map extractTeamNumber
        totalPoints := allianceData.score
        autoPoints := breakdown.autoPoints
        teleopPoints := breakdown.teleopPoints
        foulPoints := breakdown.foulPoints
        autoCoralL1 := breakdown.autoReef.trough
        autoCoralL2 := breakdown.autoReef.tba_botRowCount
        autoCoralL3 := breakdown.autoReef.tba_midRowCount
        autoCoralL4 := breakdown.autoReef.tba_topRowCount
        autoCoralTotal := breakdown.autoCoralCount
        autoCoralPoints := breakdown.autoCoralPoints
        teleopCoralL1 := breakdown.teleopReef.trough
        teleopCoralL2 := breakdown.teleopReef.tba_botRowCount
        teleopCoralL3 := breakdown.teleopReef.tba_midRowCount
        teleopCoralL4 := breakdown.teleopReef.tba_topRowCount
        teleopCoralTotal := breakdown.teleopCoralCount
        teleopCoralPoints := breakdown.teleopCoralPoints
        algaeNet := breakdown.netAlgaeCount
        algaeProcessor := breakdown.wallAlgaeCount
        algaeTotal := breakdown.netAlgaeCount + breakdown.wallAlgaeCount
        algaePoints := breakdown.algaePoints
        mobilityCount := mobilityCount
        mobilityPoints := breakdown.autoMobilityPoints
        deepClimbs := deepClimbs
        shallowClimbs := shallowClimbs
        parks := parks
        endgamePoints := breakdown.endGameBargePoints
        autoBonusAchieved := breakdown.autoBonusAchieved
        coralBonusAchieved := breakdown.coralBonusAchieved
        bargeBonusAchieved := breakdown.bargeBonusAchieved
        foulCount := breakdown.foulCount
        techFoulCount := breakdown.techFoulCount }

-- ===========================================================================
-- 2025 game constants (`calculateMatchPoints` module)
-- ===========================================================================

/-- Per-level coral point values. -/
structure CoralPointValues : Type where
  L1 : ℚ
  L2 : ℚ
  L3 : ℚ
  L4 : ℚ

/-- Algae point values by target. -/
structure AlgaePointValues : Type where
  NET : ℚ
  PROCESSOR : ℚ

/-- Endgame point values by outcome. -/
structure EndgamePointValues : Type where
  PARK : ℚ
  SHALLOW_CLIMB : ℚ
  DEEP_CLIMB : ℚ

/-- `AUTO_CORAL_POINTS` from the 2025 game-constants module. -/
def AUTO_CORAL_POINTS : CoralPointValues := { L1 := 3, L2 := 4, L3 := 6, L4 := 7 }

/-- `AUTO_ALGAE_POINTS` from the 2025 game-constants module. -/
def AUTO_ALGAE_POINTS : AlgaePointValues := { NET := 4, PROCESSOR := 6 }

/-- `AUTO_MOBILITY_POINTS` from the 2025 game-constants module. -/
def AUTO_MOBILITY_POINTS : ℚ := 3

/-- `TELEOP_CORAL_POINTS` from the 2025 game-constants module. -/
def TELEOP_CORAL_POINTS : CoralPointValues := { L1 := 2, L2 := 3, L3 := 4, L4 := 5 }

/-- `TELEOP_ALGAE_POINTS` from the 2025 game-constants module. -/
def TELEOP_ALGAE_POINTS : AlgaePointValues := { NET := 4, PROCESSOR := 6 }

/-- `ENDGAME_POINTS` from the 2025 game-constants module. -/
def ENDGAME_POINTS : EndgamePointValues :=
  { PARK := 2, SHALLOW_CLIMB := 6, DEEP_CLIMB := 12 }

/-- `calculateAutoCoralPoints` from the 2025 game-constants module. -/
def calculateAutoCoralPoints (l1 l2 l3 l4 : ℚ) : ℚ :=
  l1 * AUTO_CORAL_POINTS.L1 + l2 * AUTO_CORAL_POINTS.L2 +
  l3 * AUTO_CORAL_POINTS.L3 + l4 * AUTO_CORAL_POINTS.L4

/-- `calculateTeleopCoralPoints` from the 2025 game-constants module. -/
def calculateTeleopCoralPoints (l1 l2 l3 l4 : ℚ) : ℚ :=
  l1 * TELEOP_CORAL_POINTS.L1 + l2 * TELEOP_CORAL_POINTS.L2 +
  l3 * TELEOP_CORAL_POINTS.L3 + l4 * TELEOP_CORAL_POINTS.L4

/-- `calculateAlgaePoints` from the 2025 game-constants module. -/
def calculateAlgaePoints (net processor : ℚ) (isAuto : Bool) : ℚ :=
  net * (if isAuto then AUTO_ALGAE_POINTS.NET else TELEOP_ALGAE_POINTS.NET) +
  processor *
    (if isAuto then AUTO_ALGAE_POINTS.PROCESSOR else TELEOP_ALGAE_POINTS.PROCESSOR)

/-- `calculateEndgamePoints` from the 2025 game-constants module. -/
def calculateEndgamePoints (parks shallowClimbs deepClimbs : ℚ) : ℚ :=
  parks * ENDGAME_POINTS.PARK + shallowClimbs * ENDGAME_POINTS.SHALLOW_CLIMB +
  deepClimbs * ENDGAME_POINTS.DEEP_CLIMB

/-- The parameter record of `calculateMatchPoints`. -/
structure MatchPointsParams : Type where
  autoCoralL1 : ℚ
  autoCoralL2 : ℚ
  autoCoralL3 : ℚ
  autoCoralL4 : ℚ
  autoAlgaeNet : ℚ
  autoAlgaeProcessor : ℚ
  autoMobility : ℚ
  teleopCoralL1 : ℚ
  teleopCoralL2 : ℚ
  teleopCoralL3 : ℚ
  teleopCoralL4 : ℚ
  teleopAlgaeNet : ℚ
  teleopAlgaeProcessor : ℚ
  parks : ℚ
  shallowClimbs : ℚ
  deepClimbs : ℚ

/-- `calculateMatchPoints` from the 2025 game-constants module
(total match points, excluding bonuses and penalties). -/
def calculateMatchPoints (params : MatchPointsParams) : ℚ :=
  let autoCoralPoints := calculateAutoCoralPoints
    params.autoCoralL1 params.autoCoralL2 params.autoCoralL3 params.autoCoralL4
  let teleopCoralPoints := calculateTeleopCoralPoints
    params.teleopCoralL1 params.teleopCoralL2 params.teleopCoralL3 params.teleopCoralL4
  let autoAlgaePoints :=
    calculateAlgaePoints params.autoAlgaeNet params.autoAlgaeProcessor true
  let teleopAlgaePoints :=
    calculateAlgaePoints params.teleopAlgaeNet params.teleopAlgaeProcessor false
  let mobilityPoints := params.autoMobility * AUTO_MOBILITY_POINTS
  let endgamePoints :=
    calculateEndgamePoints params.parks params.shallowClimbs params.deepClimbs
  autoCoralPoints + teleopCoralPoints + autoAlgaePoints + teleopAlgaePoints +
    mobilityPoints + endgamePoints

-- ===========================================================================
-- Alliance comparison (`compareAllianceData`)
-- ===========================================================================

/-- `ValidationStatus` from `matchValidationTypes.ts`. -/
inductive ValidationStatus : Type
  | passed
  | flagged
  | failed
deriving DecidableEq, Repr

/-- `ConfidenceLevel` from `matchValidationTypes.ts`. -/
inductive ConfidenceLevel : Type
  | high
  | medium
  | low
deriving DecidableEq, Repr

/-- `discrepancies.filter(d => d.severity === sev).length`. -/
def countSeverity (l : List Discrepancy) (sev : DiscrepancySeverity) : ℕ :=
  (l.filter (fun d => d.severity = sev)).length

/-- The derived teleop-only official L1 figure:
`Math.max(0, tbaData.teleopCoralL1 - tbaData.autoCoralL1)`. -/
def tbaActualTeleopL1 (t : TBAAllianceData) : ℚ :=
  max 0 (t.teleopCoralL1 - t.autoCoralL1)

/-- The derived teleop-only official L2 figure. -/
def tbaActualTeleopL2 (t : TBAAllianceData) : ℚ :=
  max 0 (t.teleopCoralL2 - t.autoCoralL2)

/-- The derived teleop-only official L3 figure. -/
def tbaActualTeleopL3 (t : TBAAllianceData) : ℚ :=
  max 0 (t.teleopCoralL3 - t.autoCoralL3)

/-- The derived teleop-only official L4 figure. -/
def tbaActualTeleopL4 (t : TBAAllianceData) : ℚ :=
  max 0 (t.teleopCoralL4 - t.autoCoralL4)

/-- The derived teleop-only official total, the sum of the four clamped
per-level figures. -/
def tbaActualTeleopTotal (t : TBAAllianceData) : ℚ :=
  tbaActualTeleopL1 t + tbaActualTeleopL2 t + tbaActualTeleopL3 t +
    tbaActualTeleopL4 t

/-- The auto-coral block of `compareAllianceData` (gated on
`config.checkAutoScoring`); `null` results are dropped in order. -/
def autoCoralDiscrepancies (s : ScoutedAllianceData) (t : TBAAllianceData)
    (config : ValidationConfig) : List Discrepancy :=
  if config.checkAutoScoring then
    ([createDiscrepancy DataCategory.autoCoral "Auto Coral L1" s.autoCoralL1 t.autoCoralL1 config,
      createDiscrepancy DataCategory.autoCoral "Auto Coral L2" s.autoCoralL2 t.autoCoralL2 config,
      createDiscrepancy DataCategory.autoCoral "Auto Coral L3" s.autoCoralL3 t.autoCoralL3 config,
      createDiscrepancy DataCategory.autoCoral "Auto Coral L4" s.autoCoralL4 t.autoCoralL4 config,
      createDiscrepancy DataCategory.autoCoral "Auto Coral Total" s.autoCoralTotal t.autoCoralTotal config]).filterMap id
  else []

/-- The teleop-coral block of `compareAllianceData` (gated on
`config.checkTeleopScoring`): the official counts are first corrected from
cumulative to teleop-only. -/
def teleopCoralDiscrepancies (s : ScoutedAllianceData) (t : TBAAllianceData)
    (config : ValidationConfig) : List Discrepancy :=
  if config.checkTeleopScoring then
    ([createDiscrepancy DataCategory.teleopCoral "Teleop Coral L1" s.teleopCoralL1 (tbaActualTeleopL1 t) config,
      createDiscrepancy DataCategory.teleopCoral "Teleop Coral L2" s.teleopCoralL2 (tbaActualTeleopL2 t) config,
      createDiscrepancy DataCategory.teleopCoral "Teleop Coral L3" s.teleopCoralL3 (tbaActualTeleopL3 t) config,
      createDiscrepancy DataCategory.teleopCoral "Teleop Coral L4" s.teleopCoralL4 (tbaActualTeleopL4 t) config,
      createDiscrepancy DataCategory.teleopCoral "Teleop Coral Total" s.teleopCoralTotal (tbaActualTeleopTotal t) config]).filterMap id
  else []

/-- The algae block of `compareAllianceData` (always checked; scouted auto and
teleop figures are combined to match TBA's match-combined algae counts). -/
def algaeDiscrepancies (s : ScoutedAllianceData) (t : TBAAllianceData)
    (config : ValidationConfig) : List Discrepancy :=
  let scoutedAlgaeNet := s.autoAlgaeNet + s.teleopAlgaeNet
  let scoutedAlgaeProc := s.autoAlgaeProcessor + s.teleopAlgaeProcessor
  let scoutedAlgaeTotal := scoutedAlgaeNet + scoutedAlgaeProc
  ([createDiscrepancy DataCategory.algae "Total Algae Net" scoutedAlgaeNet t.algaeNet config,
    createDiscrepancy DataCategory.algae "Total Algae Processor" scoutedAlgaeProc t.algaeProcessor config,
    createDiscrepancy DataCategory.algae "Total Algae" scoutedAlgaeTotal t.algaeTotal config]).filterMap id

/-- The mobility comparison of `compareAllianceData` (always checked). -/
def mobilityDiscrepancies (s : ScoutedAllianceData) (t : TBAAllianceData)
    (config : ValidationConfig) : List Discrepancy :=
  ([createDiscrepancy DataCategory.mobility "Mobility Count" s.autoMobility t.mobilityCount config]).filterMap id

/-- The endgame block of `compareAllianceData` (gated on
`config.checkEndgame`). -/
def endgameDiscrepancies (s : ScoutedAllianceData) (t : TBAAllianceData)
    (config : ValidationConfig) : List Discrepancy :=
  if config.checkEndgame then
    ([createDiscrepancy DataCategory.endgame "Deep Climbs" s.deepClimbs t.deepClimbs config,
      createDiscrepancy DataCategory.endgame "Shallow Climbs" s.shallowClimbs t.shallowClimbs config,
      createDiscrepancy DataCategory.endgame "Parks" s.parks t.parks config]).filterMap id
  else []

/-- The full discrepancy list of `compareAllianceData`, in push order. -/
def allianceDiscrepancies (s : ScoutedAllianceData) (t : TBAAllianceData)
    (config : ValidationConfig) : List Discrepancy :=
  autoCoralDiscrepancies s t config ++ teleopCoralDiscrepancies s t config ++
    algaeDiscrepancies s t config ++ mobilityDiscrepancies s t config ++
    endgameDiscrepancies s t config

/-- `scoutedAutoCoralPoints` from `compareAllianceData`
(auto coral at 3/4/6/7 points per level). -/
def scoutedAutoCoralPoints (s : ScoutedAllianceData) : ℚ :=
  s.autoCoralL1 * 3 + s.autoCoralL2 * 4 + s.autoCoralL3 * 6 + s.autoCoralL4 * 7

/-- `scoutedAutoAlgaePoints` from `compareAllianceData` (net 4, processor 6). -/
def scoutedAutoAlgaePoints (s : ScoutedAllianceData) : ℚ :=
  s.autoAlgaeNet * 4 + s.autoAlgaeProcessor * 6

/-- `scoutedMobilityPoints` from `compareAllianceData` (3 points each). -/
def scoutedMobilityPoints (s : ScoutedAllianceData) : ℚ :=
  s.autoMobility * 3

/-- `scoutedTeleopCoralPoints` from `compareAllianceData`
(teleop coral at 2/3/4/5 points per level). -/
def scoutedTeleopCoralPoints (s : ScoutedAllianceData) : ℚ :=
  s.teleopCoralL1 * 2 + s.teleopCoralL2 * 3 + s.teleopCoralL3 * 4 + s.teleopCoralL4 * 5

/-- `scoutedTeleopAlgaePoints` from `compareAllianceData` (net 4, processor 6). -/
def scoutedTeleopAlgaePoints (s : ScoutedAllianceData) : ℚ :=
  s.teleopAlgaeNet * 4 + s.teleopAlgaeProcessor * 6

/-- `scoutedEndgamePoints` from `compareAllianceData`
(park 2, shallow 6, deep 12). -/
def scoutedEndgamePoints (s : ScoutedAllianceData) : ℚ :=
  s.parks * 2 + s.shallowClimbs * 6 + s.deepClimbs * 12

/-- `estimatedScoutedScore` from `compareAllianceData` (total of the six
component subtotals, excluding bonuses and penalties). -/
def estimatedScoutedScore (s : ScoutedAllianceData) : ℚ :=
  scoutedAutoCoralPoints s + scoutedAutoAlgaePoints s + scoutedMobilityPoints s +
    scoutedTeleopCoralPoints s + scoutedTeleopAlgaePoints s + scoutedEndgamePoints s

/-- `tbaBreakdownScore` from `compareAllianceData` (sum of the official
per-category point subtotals, excluding bonuses and fouls). -/
def tbaBreakdownScore (t : TBAAllianceData) : ℚ :=
  t.autoCoralPoints + t.teleopCoralPoints + t.algaePoints + t.mobilityPoints +
    t.endgamePoints

/-- The scouted side of the `calculationBreakdown` record. -/
structure ScoutedCalcBreakdown : Type where
  autoCoralPts : ℚ
  autoAlgaePts : ℚ
  mobilityPts : ℚ
  teleopCoralPts : ℚ
  teleopAlgaePts : ℚ
  endgamePts : ℚ

/-- The TBA side of the `calculationBreakdown` record. -/
structure TBACalcBreakdown : Type where
  autoCoralPts : ℚ
  teleopCoralPts : ℚ
  algaePts : ℚ
  mobilityPts : ℚ
  endgamePts : ℚ

/-- `calculationBreakdown` of `AllianceValidation`. -/
structure CalculationBreakdown : Type where
  scouted : ScoutedCalcBreakdown
  tba : TBACalcBreakdown

/-- `AllianceValidation` from `matchValidationTypes.ts`. -/
structure AllianceValidation : Type where
  alliance : Alliance
  status : ValidationStatus
  confidence : ConfidenceLevel
  discrepancies : List Discrepancy
  totalScoutedPoints : ℚ
  totalTBAPoints : ℚ
  scoreDifference : ℚ
  scorePercentDiff : ℚ
  scoutedData : ScoutedAllianceData
  tbaData : TBAAllianceData
  calculationBreakdown : CalculationBreakdown

/-- `compareAllianceData` from `matchValidationUtils.ts`: collect the
discrepancy blocks, compute the estimated scouted score and the official
breakdown-only score, then derive status and confidence from the discrepancy
counts. (The diagnostic `console.log` of the source is a pure side effect and
has no embedding.) -/
def compareAllianceData (scoutedData : ScoutedAllianceData)
    (tbaData : TBAAllianceData) (config : ValidationConfig) :
    AllianceValidation :=
  let discrepancies := allianceDiscrepancies scoutedData tbaData config
  let scoreDifference := |estimatedScoutedScore scoutedData - tbaBreakdownScore tbaData|
  let scorePercentDiff :=
    if tbaBreakdownScore tbaData = 0 then 0
    else scoreDifference / tbaBreakdownScore tbaData * 100
  let criticalCount := countSeverity discrepancies DiscrepancySeverity.critical
  let warningCount := countSeverity discrepancies DiscrepancySeverity.warning
  let minorCount := countSeverity discrepancies DiscrepancySeverity.minor
  let status :=
    if criticalCount ≥ config.autoFlagThreshold then ValidationStatus.failed
    else if criticalCount > 0 then ValidationStatus.flagged
    else if warningCount > 2 then ValidationStatus.flagged
    else if warningCount > 0 ∨ minorCount > 3 then ValidationStatus.flagged
    else ValidationStatus.passed
  let confidence :=
    if scoutedData.missingTeams.length > 0 then ConfidenceLevel.low
    else if criticalCount > 0 then ConfidenceLevel.low
    else if warningCount > 2 then ConfidenceLevel.medium
    else ConfidenceLevel.high
  { alliance := scoutedData.alliance
    status := status
    confidence := confidence
    discrepancies := discrepancies
    totalScoutedPoints := estimatedScoutedScore scoutedData
    totalTBAPoints := tbaBreakdownScore tbaData
    scoreDifference := scoreDifference
    scorePercentDiff := jsRound (scorePercentDiff * 10) / 10
    scoutedData := scoutedData
    tbaData := tbaData
    calculationBreakdown :=
      { scouted :=
          { autoCoralPts := scoutedAutoCoralPoints scoutedData
            autoAlgaePts := scoutedAutoAlgaePoints scoutedData
            mobilityPts := scoutedMobilityPoints scoutedData
            teleopCoralPts := scoutedTeleopCoralPoints scoutedData
            teleopAlgaePts := scoutedTeleopAlgaePoints scoutedData
            endgamePts := scoutedEndgamePoints scoutedData }
        tba :=
          { autoCoralPts := tbaData.autoCoralPoints
            teleopCoralPts := tbaData.teleopCoralPoints
            algaePts := tbaData.algaePoints
            mobilityPts := tbaData.mobilityPoints
            endgamePts := tbaData.endgamePoints } } }

-- ===========================================================================
-- Match validation (`validateMatch`)
-- ===========================================================================

/-- `MatchValidationResult` from `matchValidationTypes.ts`. The per-team
metadata list (`teams`: scout identity, correction metadata passthrough,
per-team scoring breakdown) and the `validatedAt` timestamp are
presentation-only fields not read by any property below and are omitted from
the embedding. -/
structure MatchValidationResult : Type where
  id : String
  eventKey : String
  matchKey : String
  matchNumber : String
  compLevel : String
  status : ValidationStatus
  confidence : ConfidenceLevel
  redAlliance : AllianceValidation
  blueAlliance : AllianceValidation
  totalDiscrepancies : ℕ
  criticalDiscrepancies : ℕ
  warningDiscrepancies : ℕ
  flaggedForReview : Bool
  requiresReScout : Bool

/-- `validateMatch` from `matchValidationUtils.ts`: extract both official
alliances, aggregate both scouted alliances against the official rosters,
compare, then combine the two discrepancy lists into the match-level status,
confidence and flags. -/
def validateMatch (eventKey matchNumber : String)
    (scoutedRedEntries scoutedBlueEntries : List ScoutingEntry)
    (tbaMatch : TBAMatchData) (config : ValidationConfig) :
    MatchValidationResult :=
  let tbaRed := extractTBAAllianceData tbaMatch Alliance.red
  let tbaBlue := extractTBAAllianceData tbaMatch Alliance.blue
  let scoutedRed := aggregateScoutedAllianceData scoutedRedEntries Alliance.red
    matchNumber eventKey tbaRed.teams
  let scoutedBlue := aggregateScoutedAllianceData scoutedBlueEntries Alliance.blue
    matchNumber eventKey tbaBlue.teams
  let redValidation := compareAllianceData scoutedRed tbaRed config
  let blueValidation := compareAllianceData scoutedBlue tbaBlue config
  let allDiscrepancies := redValidation.discrepancies ++ blueValidation.discrepancies
  let criticalCount := countSeverity allDiscrepancies DiscrepancySeverity.critical
  let warningCount := countSeverity allDiscrepancies DiscrepancySeverity.warning
  let minorCount := countSeverity allDiscrepancies DiscrepancySeverity.minor
  let status :=
    if criticalCount ≥ config.requireReScoutThreshold then ValidationStatus.failed
    else if criticalCount ≥ config.autoFlagThreshold then ValidationStatus.flagged
    else if warningCount > 2 then ValidationStatus.flagged
    else if warningCount > 0 ∨ minorCount > 6 then ValidationStatus.flagged
    else ValidationStatus.passed
  let confidence :=
    if redValidation.confidence = ConfidenceLevel.low ∨
        blueValidation.confidence = ConfidenceLevel.low then ConfidenceLevel.low
    else if redValidation.confidence = ConfidenceLevel.medium ∨
        blueValidation.confidence = ConfidenceLevel.medium then ConfidenceLevel.medium
    else ConfidenceLevel.high
  { id := eventKey ++ "_" ++ tbaMatch.key
    eventKey := eventKey
    matchKey := tbaMatch.key
    matchNumber := matchNumber
    compLevel := tbaMatch.comp_level
    status := status
    confidence := confidence
    redAlliance := redValidation
    blueAlliance := blueValidation
    totalDiscrepancies := allDiscrepancies.length
    criticalDiscrepancies := criticalCount
    warningDiscrepancies := warningCount
    flaggedForReview :=
      (match status with
        | ValidationStatus.flagged => true
        | ValidationStatus.failed => true
        | ValidationStatus.passed => false)
    requiresReScout :=
      (match status with
        | ValidationStatus.failed => true
        | _ => false) }

-- ===========================================================================
-- Merge / conflict resolution
-- ===========================================================================

/-- The `ScoutingEntryDB` fields read by the merge machinery (canonical store
records: identity fields, scout identity, correction flag). -/
structure ScoutingEntryDB : Type where
  id : String
  matchNumber : String
  teamNumber : String
  alliance : String
  eventName : String
  scoutName : String
  isCorrected : Bool
deriving DecidableEq, Repr

/-- The incoming record payload (`entry.data`) as read by the merge
machinery. JS string coercions `String(x || '')` are modelled by taking the
fields as strings with the empty string for an absent value. -/
structure IncomingData : Type where
  matchNumber : String
  selectTeam : String
  teamNumber : String
  alliance : String
  eventName : String
  scoutName : String
  isCorrected : Bool
deriving DecidableEq, Repr

/-- `ScoutingDataWithId`: an incoming entry with its transport id. -/
structure ScoutingDataWithId : Type where
  id : String
  data : IncomingData
deriving DecidableEq, Repr

/-- JS `a || b` on strings: the empty string is falsy. -/
def jsOrString (a b : String) : String := if a = "" then b else a

/-- Whether the first character list starts with the second. -/
def startsWithChars : List Char → List Char → Bool
  | _, [] => true
  | [], _ :: _ => false
  | c :: cs, p :: ps => c = p && startsWithChars cs ps

/-- Remove the first occurrence of `pat` from a character list (JS
`String.prototype.replace(pat, '')` replaces only the first occurrence). -/
def removeFirstMatch : List Char → List Char → List Char
  | [], _ => []
  | c :: cs, pat =>
      if startsWithChars (c :: cs) pat then (c :: cs).drop pat.length
      else c :: removeFirstMatch cs pat

/-- JS `String.prototype.replace(pattern, '')` with a plain-string pattern:
only the first occurrence is removed. -/
def replaceFirstWithEmpty (s pat : String) : String :=
  String.mk (removeFirstMatch s.data pat.data)

/-- JS `String.prototype.toLowerCase` (character-wise case mapping; the
alliance strings of this domain are ASCII). -/
def jsToLower (s : String) : String := String.mk (s.data.map Char.toLower)

/-- JS `String.prototype.trim`: drop whitespace from both ends. -/
def jsTrim (s : String) : String :=
  String.mk (((s.data.dropWhile Char.isWhitespace).reverse.dropWhile
    Char.isWhitespace).reverse)

/-- The alliance normalization of the auto-replace lookup:
`.toLowerCase().replace('alliance', '').trim()`. -/
def normalizeAlliance (s : String) : String :=
  jsTrim (replaceFirstWithEmpty (jsToLower s) "alliance")

/-- `findExistingEntry` from the fountain-data utilities: identity matching by
(event, match, team); when `eventName` is missing, fall back to
(match, team). Alliance is never read. -/
def findExistingEntry (store : List ScoutingEntryDB) (incomingData : IncomingData) :
    Option ScoutingEntryDB :=
  let matchNumber := incomingData.matchNumber
  let teamNumber := jsOrString incomingData.selectTeam incomingData.teamNumber
  let eventName := incomingData.eventName
  if eventName ≠ "" then
    store.find? (fun e =>
      e.matchNumber = matchNumber ∧ e.teamNumber = teamNumber ∧
        e.eventName = eventName)
  else
    store.find? (fun e =>
      e.matchNumber = matchNumber ∧ e.teamNumber = teamNumber)

/-- The auto-replace delete lookup of `handleScoutingDataUpload`
(`scoutingDataUploadHandler.ts`, smart-merge branch): the existing record to
delete is searched by match number, team number, normalized alliance AND
event name. -/
def autoReplaceLookup (store : List ScoutingEntryDB) (incomingData : IncomingData) :
    Option ScoutingEntryDB :=
  let matchNumber := incomingData.matchNumber
  let teamNumber := jsOrString incomingData.selectTeam incomingData.teamNumber
  let alliance := normalizeAlliance incomingData.alliance
  let eventName := incomingData.eventName
  store.find? (fun e =>
    e.matchNumber = matchNumber ∧ e.teamNumber = teamNumber ∧
      normalizeAlliance e.alliance = alliance ∧ e.eventName = eventName)

/-- The three-way classification of an incoming record during merge. -/
inductive MergeClassification : Type
  | autoImport
  | autoReplace
  | needsReview
deriving DecidableEq, Repr

/-- Modelled from the spec: the `detectConflicts` implementation lives in
`scoutingDataUtils.ts`, which is not among the available sources; this
follows the decision matrix of `docs/CONFLICT_RESOLUTION_SPEC.md` (existing
none → auto-import; existing uncorrected → auto-replace, whether or not the
incoming record is corrected; existing corrected → needs-review, whether or
not the incoming record is corrected), with record matching by the
(event, match, team) key as implemented by `findExistingEntry`. The further
split of needs-review records into identical duplicates, batch review and
true conflicts happens downstream and is not modelled. -/
def classifyIncoming (store : List ScoutingEntryDB) (incoming : ScoutingDataWithId) :
    MergeClassification :=
  match findExistingEntry store incoming.data with
  | Option.none => MergeClassification.autoImport
  | Option.some localEntry =>
      if localEntry.isCorrected then MergeClassification.needsReview
      else MergeClassification.autoReplace

/-- Modelled from the spec: the changed-fields computation of the conflict
dialog lives in `scoutingDataUtils.ts`, which is not among the available
sources. Per the spec an alliance mismatch between two records matched on
(event, match, team) is "surfaced as a visible changed field"; only the
fields present in this embedding's record model are compared. -/
def changedFields (localEntry : ScoutingEntryDB) (incomingData : IncomingData) :
    List String :=
  (if localEntry.scoutName ≠ incomingData.scoutName then ["scoutName"] else []) ++
    (if localEntry.alliance ≠ incomingData.alliance then ["alliance"] else [])

-- ===========================================================================
-- Example inputs used by witnesses and counterexamples
-- ===========================================================================

/-- A representative threshold configuration with the usual ordering
`minorAbsolute < warningAbsolute < criticalAbsolute` and percentage cutoffs
`minor < warning < critical`. -/
def cfgA : ValidationConfig :=
  { thresholds :=
      { criticalAbsolute := 10, warningAbsolute := 3, minorAbsolute := 1
        critical := 50, warning := 25, minor := 10 }
    categoryThresholds := fun _ => Option.none
    checkAutoScoring := true
    checkTeleopScoring := true
    checkEndgame := true
    autoFlagThreshold := 2
    requireReScoutThreshold := 3 }

/-- A threshold configuration whose absolute cutoffs all exceed 1. -/
def cfgB : ValidationConfig :=
  { thresholds :=
      { criticalAbsolute := 5, warningAbsolute := 3, minorAbsolute := 2
        critical := 50, warning := 25, minor := 10 }
    categoryThresholds := fun _ => Option.none
    checkAutoScoring := true
    checkTeleopScoring := true
    checkEndgame := true
    autoFlagThreshold := 2
    requireReScoutThreshold := 3 }

/-- A validation configuration whose match-level thresholds are zero, so any
validation run trips the re-scout cutoff. -/
def cfg0 : ValidationConfig :=
  { thresholds :=
      { criticalAbsolute := 10, warningAbsolute := 3, minorAbsolute := 1
        critical := 50, warning := 25, minor := 10 }
    categoryThresholds := fun _ => Option.none
    checkAutoScoring := true
    checkTeleopScoring := true
    checkEndgame := true
    autoFlagThreshold := 0
    requireReScoutThreshold := 0 }

/-- An official alliance record whose only nonzero entries are auto-L3 = 2
and cumulative teleop-L3 = 5. -/
def tEx : TBAAllianceData :=
  { alliance := Alliance.red, teams := []
    totalPoints := 0, autoPoints := 0, teleopPoints := 0, foulPoints := 0
    autoCoralL1 := 0, autoCoralL2 := 0, autoCoralL3 := 2, autoCoralL4 := 0
    autoCoralTotal := 2, autoCoralPoints := 0
    teleopCoralL1 := 0, teleopCoralL2 := 0, teleopCoralL3 := 5, teleopCoralL4 := 0
    teleopCoralTotal := 5, teleopCoralPoints := 0
    algaeNet := 0, algaeProcessor := 0, algaeTotal := 0, algaePoints := 0
    mobilityCount := 0, mobilityPoints := 0
    deepClimbs := 0, shallowClimbs := 0, parks := 0, endgamePoints := 0
    autoBonusAchieved := false, coralBonusAchieved := false
    bargeBonusAchieved := false
    foulCount := 0, techFoulCount := 0 }

/-- An all-zero scouted alliance aggregate. -/
def sEx : ScoutedAllianceData :=
  { alliance := Alliance.red, matchNumber := "10", eventName := "2025test"
    teams := [], scoutNames := []
    autoCoralL1 := 0, autoCoralL2 := 0, autoCoralL3 := 0, autoCoralL4 := 0
    autoCoralTotal := 0
    autoAlgaeNet := 0, autoAlgaeProcessor := 0, autoAlgaeTotal := 0
    autoMobility := 0
    teleopCoralL1 := 0, teleopCoralL2 := 0, teleopCoralL3 := 0, teleopCoralL4 := 0
    teleopCoralTotal := 0
    teleopAlgaeNet := 0, teleopAlgaeProcessor := 0, teleopAlgaeTotal := 0
    deepClimbs := 0, shallowClimbs := 0, parks := 0, climbFails := 0
    brokeDown := 0, playedDefense := 0
    missingTeams := [], scoutedTeamsCount := 0 }

/-- An official match payload without a published score breakdown. -/
def tbaMatchEx : TBAMatchData :=
  { key := "2025test_qm10", comp_level := "qm"
    redInfo := { team_keys := ["frc100", "frc200", "frc300"], score := 0 }
    blueInfo := { team_keys := ["frc400", "frc500", "frc600"], score := 0 }
    score_breakdown := Option.none }

/-- A scouting entry that attempted a deep climb and a park but failed the
climb. -/
def entryClimbFailedEx : ScoutingEntry :=
  { matchNumber := "10", alliance := "red", scoutName := "Alice"
    selectTeam := "100", eventName := "2025test"
    autoCoralPlaceL1Count := 0, autoCoralPlaceL2Count := 0
    autoCoralPlaceL3Count := 0, autoCoralPlaceL4Count := 0
    teleopCoralPlaceL1Count := 0, teleopCoralPlaceL2Count := 0
    teleopCoralPlaceL3Count := 0, teleopCoralPlaceL4Count := 0
    autoAlgaePlaceNetShot := 0, autoAlgaePlaceProcessor := 0
    teleopAlgaePlaceNetShot := 0, teleopAlgaePlaceProcessor := 0
    autoPassedStartLine := true
    deepClimbAttempted := true, shallowClimbAttempted := false
    parkAttempted := true, climbFailed := true
    brokeDown := false, playedDefense := false }

/-- A corrected canonical record for (2025test, match 10, team 316). -/
def dbCorrected : ScoutingEntryDB :=
  { id := "local-1", matchNumber := "10", teamNumber := "316"
    alliance := "blue", eventName := "2025test", scoutName := "Lead A"
    isCorrected := true }

/-- An uncorrected canonical record for (2025test, match 10, team 316),
red alliance. -/
def dbUncorrected : ScoutingEntryDB :=
  { id := "local-2", matchNumber := "10", teamNumber := "316"
    alliance := "red", eventName := "2025test", scoutName := "Alice"
    isCorrected := false }

/-- An uncorrected incoming record for the same (event, match, team) key,
blue alliance. -/
def incUncorrected : ScoutingDataWithId :=
  { id := "2025test::10::316"
    data :=
      { matchNumber := "10", selectTeam := "316", teamNumber := ""
        alliance := "blue", eventName := "2025test", scoutName := "Bob"
        isCorrected := false } }

/-- A corrected incoming record for the same (event, match, team) key. -/
def incCorrected : ScoutingDataWithId :=
  { id := "2025test::10::316"
    data :=
      { matchNumber := "10", selectTeam := "316", teamNumber := ""
        alliance := "blue", eventName := "2025test", scoutName := "Lead B"
        isCorrected := true } }

-- ===========================================================================
-- Helper lemmas
-- ===========================================================================

/-- The control flow of `calculateSeverity` collapses to the three absolute
checks: whenever they all fail, `difference < warningAbsolute` holds, so the
fourth branch returns `none` and the percentage comparisons are unreachable. -/
lemma calculateSeverity_absolute (difference percentDiff : ℚ)
    (config : ValidationConfig) (category : Option DataCategory) :
    calculateSeverity difference percentDiff config category =
      (if difference ≥ (selectThresholds config category).criticalAbsolute then
        DiscrepancySeverity.critical
      else if difference ≥ (selectThresholds config category).warningAbsolute then
        DiscrepancySeverity.warning
      else if difference ≥ (selectThresholds config category).minorAbsolute then
        DiscrepancySeverity.minor
      else DiscrepancySeverity.none) := by
  simp only [calculateSeverity]
  split_ifs <;> first | rfl | (exfalso; linarith)

/-- The absolute-threshold chain is monotone in the difference under the
severity ordinal. -/
lemma sevRank_calculateSeverity_mono (config : ValidationConfig)
    (category : Option DataCategory) {d1 d2 : ℚ} (h : d1 ≤ d2) (p1 p2 : ℚ) :
    sevRank (calculateSeverity d1 p1 config category) ≤
      sevRank (calculateSeverity d2 p2 config category) := by
  rw [calculateSeverity_absolute, calculateSeverity_absolute]
  split_ifs <;> first | (exfalso; linarith) | (norm_num [sevRank])

/-- A produced discrepancy carries exactly the category, field name, scouted
value and official value it was created from. -/
lemma createDiscrepancy_eq_some {c : DataCategory} {f : String} {sv tv : ℚ}
    {cfg : ValidationConfig} {d : Discrepancy}
    (h : createDiscrepancy c f sv tv cfg = Option.some d) :
    d.category = c ∧ d.field = f ∧ d.scoutedValue = sv ∧ d.tbaValue = tv := by
  unfold createDiscrepancy at h
  dsimp only at h
  by_cases hs : calculateSeverity |sv - tv|
      (if (max sv tv) = 0 then 0 else |sv - tv| / (max sv tv) * 100) cfg
      (Option.some c) = DiscrepancySeverity.none
  · rw [if_pos hs] at h
    exact Option.noConfusion h
  · rw [if_neg hs] at h
    injection h with h
    subst h
    exact ⟨rfl, rfl, rfl, rfl⟩

/-- Membership in a `filterMap id` of optional discrepancies. -/
lemma mem_filterMap_id {L : List (Option Discrepancy)} {d : Discrepancy}
    (h : d ∈ L.filterMap id) : Option.some d ∈ L := by
  simp only [List.mem_filterMap, id_eq] at h
  obtain ⟨a, ha, rfl⟩ := h
  exact ha

/-- Every discrepancy of the auto-coral block carries one of its five field
names. -/
lemma autoCoral_field_mem {s : ScoutedAllianceData} {t : TBAAllianceData}
    {cfg : ValidationConfig} {d : Discrepancy}
    (h : d ∈ autoCoralDiscrepancies s t cfg) :
    d.field ∈ ["Auto Coral L1", "Auto Coral L2", "Auto Coral L3",
      "Auto Coral L4", "Auto Coral Total"] := by
  unfold autoCoralDiscrepancies at h
  split at h
  · have h' := mem_filterMap_id h
    simp only [List.mem_cons, List.not_mem_nil, or_false] at h'
    rcases h' with h' | h' | h' | h' | h' <;>
      · obtain ⟨-, hf, -, -⟩ := createDiscrepancy_eq_some h'.symm
        simp [hf]
  · simp at h

/-- Every discrepancy of the algae block carries one of its three field
names. -/
lemma algae_field_mem {s : ScoutedAllianceData} {t : TBAAllianceData}
    {cfg : ValidationConfig} {d : Discrepancy}
    (h : d ∈ algaeDiscrepancies s t cfg) :
    d.field ∈ ["Total Algae Net", "Total Algae Processor", "Total Algae"] := by
  unfold algaeDiscrepancies at h
  have h' := mem_filterMap_id h
  simp only [List.mem_cons, List.not_mem_nil, or_false] at h'
  rcases h' with h' | h' | h' <;>
    · obtain ⟨-, hf, -, -⟩ := createDiscrepancy_eq_some h'.symm
      simp [hf]

/-- Every discrepancy of the mobility comparison carries its field name. -/
lemma mobility_field_mem {s : ScoutedAllianceData} {t : TBAAllianceData}
    {cfg : ValidationConfig} {d : Discrepancy}
    (h : d ∈ mobilityDiscrepancies s t cfg) :
    d.field = "Mobility Count" := by
  unfold mobilityDiscrepancies at h
  have h' := mem_filterMap_id h
  simp only [List.mem_cons, List.not_mem_nil, or_false] at h'
  obtain ⟨-, hf, -, -⟩ := createDiscrepancy_eq_some h'.symm
  exact hf

/-- Every discrepancy of the endgame block carries one of its three field
names. -/
lemma endgame_field_mem {s : ScoutedAllianceData} {t : TBAAllianceData}
    {cfg : ValidationConfig} {d : Discrepancy}
    (h : d ∈ endgameDiscrepancies s t cfg) :
    d.field ∈ ["Deep Climbs", "Shallow Climbs", "Parks"] := by
  unfold endgameDiscrepancies at h
  split at h
  · have h' := mem_filterMap_id h
    simp only [List.mem_cons, List.not_mem_nil, or_false] at h'
    rcases h' with h' | h' | h' <;>
      · obtain ⟨-, hf, -, -⟩ := createDiscrepancy_eq_some h'.symm
        simp [hf]
  · simp at h

/-- Every discrepancy of the teleop-coral block carries one of its five field
names together with the matching derived official value. -/
lemma teleopCoral_spec {s : ScoutedAllianceData} {t : TBAAllianceData}
    {cfg : ValidationConfig} {d : Discrepancy}
    (h : d ∈ teleopCoralDiscrepancies s t cfg) :
    (d.field = "Teleop Coral L1" ∧ d.tbaValue = tbaActualTeleopL1 t) ∨
    (d.field = "Teleop Coral L2" ∧ d.tbaValue = tbaActualTeleopL2 t) ∨
    (d.field = "Teleop Coral L3" ∧ d.tbaValue = tbaActualTeleopL3 t) ∨
    (d.field = "Teleop Coral L4" ∧ d.tbaValue = tbaActualTeleopL4 t) ∨
    (d.field = "Teleop Coral Total" ∧ d.tbaValue = tbaActualTeleopTotal t) := by
  unfold teleopCoralDiscrepancies at h
  split at h
  · have h' := mem_filterMap_id h
    simp only [List.mem_cons, List.not_mem_nil, or_false] at h'
    rcases h' with h' | h' | h' | h' | h'
    · exact Or.inl ⟨(createDiscrepancy_eq_some h'.symm).2.1,
        (createDiscrepancy_eq_some h'.symm).2.2.2⟩
    · exact Or.inr (Or.inl ⟨(createDiscrepancy_eq_some h'.symm).2.1,
        (createDiscrepancy_eq_some h'.symm).2.2.2⟩)
    · exact Or.inr (Or.inr (Or.inl ⟨(createDiscrepancy_eq_some h'.symm).2.1,
        (createDiscrepancy_eq_some h'.symm).2.2.2⟩))
    · exact Or.inr (Or.inr (Or.inr (Or.inl ⟨(createDiscrepancy_eq_some h'.symm).2.1,
        (createDiscrepancy_eq_some h'.symm).2.2.2⟩)))
    · exact Or.inr (Or.inr (Or.inr (Or.inr ⟨(createDiscrepancy_eq_some h'.symm).2.1,
        (createDiscrepancy_eq_some h'.symm).2.2.2⟩)))
  · simp at h

-- ===========================================================================
-- Claim theorems
-- ===========================================================================

/-- C1: the claim says that once `difference >= warningAbsolute` the
percentage thresholds are evaluated and can escalate the classification, so
that some input's final severity is determined by a percentage threshold. The
code does the opposite: at the failing input (thresholds 1/3/10 absolute,
10/25/50 percent; difference 5, percentage difference 100) the absolute chain
already returns `warning` even though the percentage (100) clears the
critical percentage bar (50), and in general the result of
`calculateSeverity` never depends on the percentage argument at all — the
percentage branch is unreachable. -/
theorem c1_percentage_never_determines_severity :
    ((5 : ℚ) ≥ cfgA.thresholds.warningAbsolute ∧
      (100 : ℚ) ≥ cfgA.thresholds.critical ∧
      calculateSeverity 5 100 cfgA Option.none = DiscrepancySeverity.warning) ∧
    ∀ (difference p p' : ℚ) (config : ValidationConfig)
      (category : Option DataCategory),
      calculateSeverity difference p config category =
        calculateSeverity difference p' config category := by
  constructor
  · refine ⟨by norm_num [cfgA], by norm_num [cfgA], ?_⟩
    rw [calculateSeverity_absolute]
    norm_num [selectThresholds, cfgA]
  · intro difference p p' config category
    rw [calculateSeverity_absolute, calculateSeverity_absolute]

/-- C2 counterexample: the claim quantifies over every threshold set and says
`|scouted - official| < warningAbsolute` always yields `none` — and in
particular scouted=0, official=1. With the (ordinary) thresholds of `cfgA`
(`minorAbsolute` = 1 below `warningAbsolute` = 3), exactly that pair gives
difference 1 < 3 yet severity `minor`, not `none`. -/
theorem c2_absolute_gate_counterexample :
    |(0 : ℚ) - 1| < cfgA.thresholds.warningAbsolute ∧
      calculateSeverity |(0 : ℚ) - 1| (percentDiffJS 0 1) cfgA Option.none =
        DiscrepancySeverity.minor ∧
      percentDiffJS 0 1 = 100 := by
  refine ⟨by norm_num [cfgA], ?_, by norm_num [percentDiffJS]⟩
  rw [calculateSeverity_absolute]
  norm_num [selectThresholds, cfgA]

/-- C2 (amended): when `|scouted - official|` is below the warning-absolute
threshold the percentage difference never influences the result, and when it
is additionally below the minor-absolute and critical-absolute thresholds
`calculateSeverity` returns `none` — regardless of how large the percentage
difference is. -/
theorem c2_absolute_gate (s o p : ℚ) (config : ValidationConfig)
    (category : Option DataCategory)
    (h1 : |s - o| < (selectThresholds config category).warningAbsolute)
    (h2 : |s - o| < (selectThresholds config category).minorAbsolute)
    (h3 : |s - o| < (selectThresholds config category).criticalAbsolute) :
    calculateSeverity |s - o| p config category = DiscrepancySeverity.none := by
  rw [calculateSeverity_absolute]
  split_ifs <;> first | rfl | (exfalso; linarith)

/-- C2 witness: scouted 0 vs official 1 under thresholds whose absolute
cutoffs all exceed 1 (`cfgB`), with percentage difference 100. -/
theorem c2_absolute_gate_witness :
    calculateSeverity |(0 : ℚ) - 1| 100 cfgB Option.none =
      DiscrepancySeverity.none :=
  c2_absolute_gate 0 1 100 cfgB Option.none
    (by norm_num [selectThresholds, cfgB])
    (by norm_num [selectThresholds, cfgB])
    (by norm_num [selectThresholds, cfgB])

/-- C8: for a fixed official value and a fixed threshold configuration, the
severity computed by `calculateSeverity` on `createDiscrepancy`'s inputs
(absolute difference and percentage difference) is monotone non-decreasing in
the absolute difference under the ordinal none < minor < warning <
critical. -/
theorem c8_severity_monotone (config : ValidationConfig)
    (category : Option DataCategory) (o s1 s2 : ℚ)
    (h : |s1 - o| ≤ |s2 - o|) :
    sevRank (calculateSeverity |s1 - o| (percentDiffJS s1 o) config category) ≤
      sevRank (calculateSeverity |s2 - o| (percentDiffJS s2 o) config category) :=
  sevRank_calculateSeverity_mono config category h _ _

/-- C8 witness: official 0, scouted 1 then 5, under `cfgA`. -/
theorem c8_severity_monotone_witness :
    sevRank (calculateSeverity |(1 : ℚ) - 0| (percentDiffJS 1 0) cfgA Option.none) ≤
      sevRank (calculateSeverity |(5 : ℚ) - 0| (percentDiffJS 5 0) cfgA Option.none) :=
  c8_severity_monotone cfgA Option.none 0 1 5 (by norm_num)

/-- C6: the alliance-level status of `compareAllianceData` is decided exactly
by the chain: critical-count at or above `autoFlagThreshold` → failed; any
critical → flagged; warning-count > 2 → flagged; warning-count > 0 or
minor-count > 3 → flagged; otherwise passed. -/
theorem c6_alliance_status_rule (s : ScoutedAllianceData) (t : TBAAllianceData)
    (cfg : ValidationConfig) :
    (compareAllianceData s t cfg).status =
      (if countSeverity (compareAllianceData s t cfg).discrepancies
          DiscrepancySeverity.critical ≥ cfg.autoFlagThreshold then
        ValidationStatus.failed
      else if countSeverity (compareAllianceData s t cfg).discrepancies
          DiscrepancySeverity.critical > 0 then
        ValidationStatus.flagged
      else if countSeverity (compareAllianceData s t cfg).discrepancies
          DiscrepancySeverity.warning > 2 then
        ValidationStatus.flagged
      else if countSeverity (compareAllianceData s t cfg).discrepancies
            DiscrepancySeverity.warning > 0 ∨
          countSeverity (compareAllianceData s t cfg).discrepancies
            DiscrepancySeverity.minor > 3 then
        ValidationStatus.flagged
      else ValidationStatus.passed) := rfl

/-- C10: the estimated scouted point total computed inline in
`compareAllianceData` coincides with `calculateMatchPoints` from the 2025
game-constants module applied to the same counts. -/
theorem c10_estimated_score_matches_game_constants (s : ScoutedAllianceData)
    (t : TBAAllianceData) (cfg : ValidationConfig) :
    (compareAllianceData s t cfg).totalScoutedPoints =
      calculateMatchPoints
        { autoCoralL1 := s.autoCoralL1, autoCoralL2 := s.autoCoralL2
          autoCoralL3 := s.autoCoralL3, autoCoralL4 := s.autoCoralL4
          autoAlgaeNet := s.autoAlgaeNet, autoAlgaeProcessor := s.autoAlgaeProcessor
          autoMobility := s.autoMobility
          teleopCoralL1 := s.teleopCoralL1, teleopCoralL2 := s.teleopCoralL2
          teleopCoralL3 := s.teleopCoralL3, teleopCoralL4 := s.teleopCoralL4
          teleopAlgaeNet := s.teleopAlgaeNet
          teleopAlgaeProcessor := s.teleopAlgaeProcessor
          parks := s.parks, shallowClimbs := s.shallowClimbs
          deepClimbs := s.deepClimbs } := by
  show estimatedScoutedScore s = _
  simp only [estimatedScoutedScore, scoutedAutoCoralPoints, scoutedAutoAlgaePoints,
    scoutedMobilityPoints, scoutedTeleopCoralPoints, scoutedTeleopAlgaePoints,
    scoutedEndgamePoints, calculateMatchPoints, calculateAutoCoralPoints,
    calculateTeleopCoralPoints, calculateAlgaePoints, calculateEndgamePoints,
    AUTO_CORAL_POINTS, TELEOP_CORAL_POINTS, AUTO_ALGAE_POINTS, TELEOP_ALGAE_POINTS,
    AUTO_MOBILITY_POINTS, ENDGAME_POINTS, ite_self]
  ring

/-- C5: the derived teleop-only official figure for each level is
`max 0 (cumulative - auto)` (in particular auto-L3 2 with cumulative 5 gives
3, and the clamp yields 0 whenever cumulative ≤ auto); the derived total is
the sum of the four clamped figures; and every teleop-coral discrepancy
produced by `compareAllianceData` for L3 or for the total indeed carries that
derived figure as its official value. -/
theorem c5_teleop_cumulative_subtraction (t : TBAAllianceData)
    (s : ScoutedAllianceData) (cfg : ValidationConfig) :
    (tbaActualTeleopL1 t = max 0 (t.teleopCoralL1 - t.autoCoralL1) ∧
      tbaActualTeleopL2 t = max 0 (t.teleopCoralL2 - t.autoCoralL2) ∧
      tbaActualTeleopL3 t = max 0 (t.teleopCoralL3 - t.autoCoralL3) ∧
      tbaActualTeleopL4 t = max 0 (t.teleopCoralL4 - t.autoCoralL4)) ∧
    (t.autoCoralL3 = 2 → t.teleopCoralL3 = 5 → tbaActualTeleopL3 t = 3) ∧
    (t.teleopCoralL3 ≤ t.autoCoralL3 → tbaActualTeleopL3 t = 0) ∧
    (tbaActualTeleopTotal t =
      tbaActualTeleopL1 t + tbaActualTeleopL2 t + tbaActualTeleopL3 t +
        tbaActualTeleopL4 t) ∧
    (∀ d ∈ (compareAllianceData s t cfg).discrepancies,
      (d.field = "Teleop Coral L3" → d.tbaValue = tbaActualTeleopL3 t) ∧
      (d.field = "Teleop Coral Total" → d.tbaValue = tbaActualTeleopTotal t)) := by
  refine ⟨⟨rfl, rfl, rfl, rfl⟩, ?_, ?_, rfl, ?_⟩
  · intro h1 h2
    simp [tbaActualTeleopL3, h1, h2]
    norm_num
  · intro hle
    simp [tbaActualTeleopL3, max_eq_left (sub_nonpos.mpr hle)]
  · intro d hd
    have hd' : d ∈ allianceDiscrepancies s t cfg := hd
    unfold allianceDiscrepancies at hd'
    simp only [List.mem_append] at hd'
    rcases hd' with (((h | h) | h) | h) | h
    · have hf := autoCoral_field_mem h
      refine ⟨fun hfe => ?_, fun hfe => ?_⟩ <;>
        · exfalso; rw [hfe] at hf; simp at hf
    · rcases teleopCoral_spec h with
        ⟨hf, hv⟩ | ⟨hf, hv⟩ | ⟨hf, hv⟩ | ⟨hf, hv⟩ | ⟨hf, hv⟩ <;>
        refine ⟨fun hfe => ?_, fun hfe => ?_⟩ <;>
          first | exact hv | (exfalso; rw [hfe] at hf; simp at hf)
    · have hf := algae_field_mem h
      refine ⟨fun hfe => ?_, fun hfe => ?_⟩ <;>
        · exfalso; rw [hfe] at hf; simp at hf
    · have hf := mobility_field_mem h
      refine ⟨fun hfe => ?_, fun hfe => ?_⟩ <;>
        · exfalso; rw [hfe] at hf; simp at hf
    · have hf := endgame_field_mem h
      refine ⟨fun hfe => ?_, fun hfe => ?_⟩ <;>
        · exfalso; rw [hfe] at hf; simp at hf

/-- C5 witness: the official record `tEx` (auto-L3 = 2, cumulative
teleop-L3 = 5) yields the derived teleop-only figure 3. -/
theorem c5_teleop_cumulative_subtraction_witness :
    tbaActualTeleopL3 tEx = 3 :=
  (c5_teleop_cumulative_subtraction tEx sEx cfgA).2.1 rfl rfl

/-- A summed boolean indicator is the length of the corresponding filter. -/
lemma jsSum_indicator {α : Type} (l : List α) (p : α → Bool) :
    jsSum l (fun e => if p e then (1 : ℚ) else 0) = ((l.filter p).length : ℚ) := by
  induction l with
  | nil => simp [jsSum]
  | cons x xs ih =>
      simp only [jsSum, List.map_cons, List.sum_cons, List.filter_cons] at ih ⊢
      by_cases h : p x <;> simp [h, ih, add_comm]

/-- C9: the comparison-path aggregate counts a deep/shallow climb only when
the attempt flag is set AND `climbFailed` is not; an entry with
`climbFailed` contributes to `climbFails` (and to `parks` when
`parkAttempted`) but never to the climb counts; the display-path aggregate
(`calculateAllianceStats`) instead counts every attempt flag regardless of
`climbFailed`. -/
theorem c9_endgame_climb_counts (entries : List ScoutingEntry) (a : Alliance)
    (mn ev : String) (expected : List String) :
    ((aggregateScoutedAllianceData entries a mn ev expected).deepClimbs =
        ((entries.filter (fun e => e.deepClimbAttempted && !e.climbFailed)).length : ℚ) ∧
      (aggregateScoutedAllianceData entries a mn ev expected).shallowClimbs =
        ((entries.filter (fun e => e.shallowClimbAttempted && !e.climbFailed)).length : ℚ) ∧
      (aggregateScoutedAllianceData entries a mn ev expected).climbFails =
        ((entries.filter (fun e => e.climbFailed)).length : ℚ) ∧
      (aggregateScoutedAllianceData entries a mn ev expected).parks =
        ((entries.filter (fun e => e.parkAttempted)).length : ℚ)) ∧
    ((calculateAllianceStats entries).deepClimbs =
        ((entries.filter (fun e => e.deepClimbAttempted)).length : ℚ) ∧
      (calculateAllianceStats entries).shallowClimbs =
        ((entries.filter (fun e => e.shallowClimbAttempted)).length : ℚ)) ∧
    (∀ e : ScoutingEntry, e.climbFailed = true →
      (aggregateScoutedAllianceData [e] a mn ev expected).deepClimbs = 0 ∧
      (aggregateScoutedAllianceData [e] a mn ev expected).shallowClimbs = 0 ∧
      (aggregateScoutedAllianceData [e] a mn ev expected).climbFails = 1 ∧
      (e.parkAttempted = true →
        (aggregateScoutedAllianceData [e] a mn ev expected).parks = 1)) := by
  refine ⟨⟨?_, ?_, ?_, ?_⟩, ?_, ?_⟩
  · exact jsSum_indicator entries _
  · exact jsSum_indicator entries _
  · exact jsSum_indicator entries _
  · exact jsSum_indicator entries _
  · by_cases hlen : entries.length = 0
    · obtain rfl : entries = [] := List.length_eq_zero.mp hlen
      simp [calculateAllianceStats, createEmptyAllianceStats]
    · simp [calculateAllianceStats, hlen]
  · intro e he
    refine ⟨?_, ?_, ?_, fun hp => ?_⟩
    · simp [aggregateScoutedAllianceData, jsSum, he]
    · simp [aggregateScoutedAllianceData, jsSum, he]
    · simp [aggregateScoutedAllianceData, jsSum, he]
    · simp [aggregateScoutedAllianceData, jsSum, hp]

/-- C9 witness: the failed-climb entry contributes to `climbFails` and
`parks` but not to `deepClimbs`/`shallowClimbs` in the comparison-path
aggregate. -/
theorem c9_endgame_climb_counts_witness :
    (aggregateScoutedAllianceData [entryClimbFailedEx] Alliance.red "10"
        "2025test" []).deepClimbs = 0 ∧
      (aggregateScoutedAllianceData [entryClimbFailedEx] Alliance.red "10"
        "2025test" []).shallowClimbs = 0 ∧
      (aggregateScoutedAllianceData [entryClimbFailedEx] Alliance.red "10"
        "2025test" []).climbFails = 1 ∧
      (aggregateScoutedAllianceData [entryClimbFailedEx] Alliance.red "10"
        "2025test" []).parks = 1 :=
  let h := (c9_endgame_climb_counts [entryClimbFailedEx] Alliance.red "10"
    "2025test" []).2.2 entryClimbFailedEx rfl
  ⟨h.1, h.2.1, h.2.2.1, h.2.2.2 rfl⟩

/-- Severity counts distribute over list concatenation. -/
lemma countSeverity_append (l1 l2 : List Discrepancy) (sev : DiscrepancySeverity) :
    countSeverity (l1 ++ l2) sev = countSeverity l1 sev + countSeverity l2 sev := by
  simp [countSeverity, List.filter_append]

/-- An alliance validation is `failed` exactly when its critical-discrepancy
count reaches the alliance-level `autoFlagThreshold`. -/
lemma allianceStatus_failed_iff (s : ScoutedAllianceData) (t : TBAAllianceData)
    (cfg : ValidationConfig) :
    (compareAllianceData s t cfg).status = ValidationStatus.failed ↔
      countSeverity (allianceDiscrepancies s t cfg) DiscrepancySeverity.critical ≥
        cfg.autoFlagThreshold := by
  show (if countSeverity (allianceDiscrepancies s t cfg) DiscrepancySeverity.critical ≥
        cfg.autoFlagThreshold then ValidationStatus.failed
      else if countSeverity (allianceDiscrepancies s t cfg)
          DiscrepancySeverity.critical > 0 then ValidationStatus.flagged
      else if countSeverity (allianceDiscrepancies s t cfg)
          DiscrepancySeverity.warning > 2 then ValidationStatus.flagged
      else if countSeverity (allianceDiscrepancies s t cfg)
            DiscrepancySeverity.warning > 0 ∨
          countSeverity (allianceDiscrepancies s t cfg)
            DiscrepancySeverity.minor > 3 then ValidationStatus.flagged
      else ValidationStatus.passed) = ValidationStatus.failed ↔ _
  split_ifs with h1 h2 h3 h4 <;> simp [h1]

/-- C7: the match-level status of `validateMatch` is `failed` whenever the
combined critical-discrepancy count reaches `requireReScoutThreshold`; the
match status is never `passed` when either alliance validation is `failed`;
`requiresReScout` holds exactly for a `failed` status, and `flaggedForReview`
for `flagged` and `failed` alike. -/
theorem c7_match_status_ordering (eventKey matchNumber : String)
    (scoutedRedEntries scoutedBlueEntries : List ScoutingEntry)
    (tbaMatch : TBAMatchData) (cfg : ValidationConfig) :
    ((validateMatch eventKey matchNumber scoutedRedEntries scoutedBlueEntries
        tbaMatch cfg).criticalDiscrepancies ≥ cfg.requireReScoutThreshold →
      (validateMatch eventKey matchNumber scoutedRedEntries scoutedBlueEntries
        tbaMatch cfg).status = ValidationStatus.failed) ∧
    (((validateMatch eventKey matchNumber scoutedRedEntries scoutedBlueEntries
          tbaMatch cfg).redAlliance.status = ValidationStatus.failed ∨
        (validateMatch eventKey matchNumber scoutedRedEntries scoutedBlueEntries
          tbaMatch cfg).blueAlliance.status = ValidationStatus.failed) →
      (validateMatch eventKey matchNumber scoutedRedEntries scoutedBlueEntries
        tbaMatch cfg).status ≠ ValidationStatus.passed) ∧
    ((validateMatch eventKey matchNumber scoutedRedEntries scoutedBlueEntries
        tbaMatch cfg).requiresReScout = true ↔
      (validateMatch eventKey matchNumber scoutedRedEntries scoutedBlueEntries
        tbaMatch cfg).status = ValidationStatus.failed) ∧
    ((validateMatch eventKey matchNumber scoutedRedEntries scoutedBlueEntries
        tbaMatch cfg).flaggedForReview = true ↔
      ((validateMatch eventKey matchNumber scoutedRedEntries scoutedBlueEntries
          tbaMatch cfg).status = ValidationStatus.flagged ∨
        (validateMatch eventKey matchNumber scoutedRedEntries scoutedBlueEntries
          tbaMatch cfg).status = ValidationStatus.failed)) := by
  dsimp only [validateMatch]
  set tbaRed := extractTBAAllianceData tbaMatch Alliance.red with htbaRed
  set tbaBlue := extractTBAAllianceData tbaMatch Alliance.blue with htbaBlue
  set scoutedRed := aggregateScoutedAllianceData scoutedRedEntries Alliance.red
    matchNumber eventKey tbaRed.teams with hsr
  set scoutedBlue := aggregateScoutedAllianceData scoutedBlueEntries Alliance.blue
    matchNumber eventKey tbaBlue.teams with hsb
  set redD := (compareAllianceData scoutedRed tbaRed cfg).discrepancies with hredD
  set blueD := (compareAllianceData scoutedBlue tbaBlue cfg).discrepancies with hblueD
  set cc := countSeverity (redD ++ blueD) DiscrepancySeverity.critical with hcc
  set wc := countSeverity (redD ++ blueD) DiscrepancySeverity.warning with hwc
  set mc := countSeverity (redD ++ blueD) DiscrepancySeverity.minor with hmc
  refine ⟨?_, ?_, ?_, ?_⟩
  · intro h
    rw [if_pos h]
  · intro h
    have hcc_ge : cc ≥ cfg.autoFlagThreshold := by
      rcases h with h | h
      · have hr := (allianceStatus_failed_iff scoutedRed tbaRed cfg).mp h
        calc cfg.autoFlagThreshold
            ≤ countSeverity redD DiscrepancySeverity.critical := hr
          _ ≤ cc := by
              rw [hcc, countSeverity_append]
              exact Nat.le_add_right _ _
      · have hb := (allianceStatus_failed_iff scoutedBlue tbaBlue cfg).mp h
        calc cfg.autoFlagThreshold
            ≤ countSeverity blueD DiscrepancySeverity.critical := hb
          _ ≤ cc := by
              rw [hcc, countSeverity_append]
              exact Nat.le_add_left _ _
    split_ifs <;> simp_all
  · generalize (if cc ≥ cfg.requireReScoutThreshold then ValidationStatus.failed
      else if cc ≥ cfg.autoFlagThreshold then ValidationStatus.flagged
      else if wc > 2 then ValidationStatus.flagged
      else if wc > 0 ∨ mc > 6 then ValidationStatus.flagged
      else ValidationStatus.passed) = st
    cases st <;> simp
  · generalize (if cc ≥ cfg.requireReScoutThreshold then ValidationStatus.failed
      else if cc ≥ cfg.autoFlagThreshold then ValidationStatus.flagged
      else if wc > 2 then ValidationStatus.flagged
      else if wc > 0 ∨ mc > 6 then ValidationStatus.flagged
      else ValidationStatus.passed) = st
    cases st <;> simp

/-- C7 witness: with a zero re-scout threshold, the combined critical count
(0) already meets the cutoff, and the match status is `failed`. -/
theorem c7_match_status_ordering_witness :
    (validateMatch "2025test" "10" [] [] tbaMatchEx cfg0).status =
      ValidationStatus.failed :=
  (c7_match_status_ordering "2025test" "10" [] [] tbaMatchEx cfg0).1
    (Nat.zero_le _)

/-- C3: the merge decision matrix (modelled from the conflict-resolution
spec, over the `findExistingEntry` matching that is in the sources): a
corrected local record with an uncorrected incoming record is classified
needs-review, never auto-replace; an uncorrected local record with a
corrected incoming record is classified auto-replace; an absent key is
classified auto-import. -/
theorem c3_merge_decision_matrix :
    (∀ (store : List ScoutingEntryDB) (incoming : ScoutingDataWithId)
      (e : ScoutingEntryDB),
      findExistingEntry store incoming.data = Option.some e →
      e.isCorrected = true → incoming.data.isCorrected = false →
      classifyIncoming store incoming = MergeClassification.needsReview) ∧
    (∀ (store : List ScoutingEntryDB) (incoming : ScoutingDataWithId)
      (e : ScoutingEntryDB),
      findExistingEntry store incoming.data = Option.some e →
      e.isCorrected = false → incoming.data.isCorrected = true →
      classifyIncoming store incoming = MergeClassification.autoReplace) ∧
    (∀ (store : List ScoutingEntryDB) (incoming : ScoutingDataWithId),
      findExistingEntry store incoming.data = Option.none →
      classifyIncoming store incoming = MergeClassification.autoImport) := by
  refine ⟨?_, ?_, ?_⟩
  · intro store incoming e hfind hcorr _
    unfold classifyIncoming
    rw [hfind]
    simp [hcorr]
  · intro store incoming e hfind hcorr _
    unfold classifyIncoming
    rw [hfind]
    simp [hcorr]
  · intro store incoming hfind
    unfold classifyIncoming
    rw [hfind]

/-- C3 witness: against a store holding only the corrected record, the
uncorrected incoming record is classified needs-review; against a store
holding only the uncorrected record, the corrected incoming record is
classified auto-replace; against an empty store it is classified
auto-import. -/
theorem c3_merge_decision_matrix_witness :
    classifyIncoming [dbCorrected] incUncorrected =
        MergeClassification.needsReview ∧
      classifyIncoming [dbUncorrected] incCorrected =
        MergeClassification.autoReplace ∧
      classifyIncoming [] incUncorrected = MergeClassification.autoImport :=
  ⟨c3_merge_decision_matrix.1 [dbCorrected] incUncorrected dbCorrected
      (by decide) rfl rfl,
    c3_merge_decision_matrix.2.1 [dbUncorrected] incCorrected dbUncorrected
      (by decide) rfl rfl,
    c3_merge_decision_matrix.2.2 [] incUncorrected (by decide)⟩

/-- C4 counterexample: the claim says alliance never participates in identity
matching, in the needs-review path and in the auto-replace delete-then-insert
lookup alike. For the concrete pair `dbUncorrected` (alliance "red") and
`incUncorrected` (alliance "blue"), identical on (event, match, team), the
conflict-matching path does match them — but the auto-replace delete lookup
of the upload handler comes back empty, because it additionally requires the
normalized alliance fields to coincide. -/
theorem c4_alliance_matching_counterexample :
    findExistingEntry [dbUncorrected] incUncorrected.data =
        Option.some dbUncorrected ∧
      dbUncorrected.alliance ≠ incUncorrected.data.alliance ∧
      autoReplaceLookup [dbUncorrected] incUncorrected.data = Option.none := by
  decide

/-- C4 (amended): conflict matching (`findExistingEntry`, the needs-review
path) ignores alliance — the incoming record's alliance value never changes
the lookup result, and a record agreeing on (event, match, team) is matched
whatever the alliance values are — and the alliance mismatch is surfaced as a
changed field; the auto-replace delete lookup of the upload handler, however,
additionally requires the normalized alliance values to coincide, and finds
nothing when they differ. -/
theorem c4_alliance_matching_amended :
    (∀ (store : List ScoutingEntryDB) (inc : IncomingData) (a : String),
      findExistingEntry store { inc with alliance := a } =
        findExistingEntry store inc) ∧
    (∀ (e : ScoutingEntryDB) (inc : IncomingData),
      inc.eventName ≠ "" →
      e.matchNumber = inc.matchNumber →
      e.teamNumber = jsOrString inc.selectTeam inc.teamNumber →
      e.eventName = inc.eventName →
      findExistingEntry [e] inc = Option.some e) ∧
    (∀ (e : ScoutingEntryDB) (inc : IncomingData),
      ("alliance" ∈ changedFields e inc ↔ e.alliance ≠ inc.alliance)) ∧
    (∀ (e : ScoutingEntryDB) (inc : IncomingData),
      normalizeAlliance e.alliance ≠ normalizeAlliance inc.alliance →
      autoReplaceLookup [e] inc = Option.none) := by
  refine ⟨?_, ?_, ?_, ?_⟩
  · intro store inc a
    rfl
  · intro e inc h1 h2 h3 h4
    unfold findExistingEntry
    rw [if_pos h1]
    simp [List.find?, h2, h3, h4]
  · intro e inc
    by_cases hs : e.scoutName = inc.scoutName <;>
      by_cases ha : e.alliance = inc.alliance <;>
        simp [changedFields, hs, ha]
  · intro e inc h
    unfold autoReplaceLookup
    simp [List.find?, h]

/-- C4 amended-claim witness: the concrete alliance-differing pair is matched
by `findExistingEntry`, shows "alliance" among its changed fields, and is
missed by the auto-replace delete lookup. -/
theorem c4_alliance_matching_amended_witness :
    findExistingEntry [dbUncorrected] incUncorrected.data =
        Option.some dbUncorrected ∧
      "alliance" ∈ changedFields dbUncorrected incUncorrected.data ∧
      autoReplaceLookup [dbUncorrected] incUncorrected.data = Option.none :=
  ⟨c4_alliance_matching_amended.2.1 dbUncorrected incUncorrected.data
      (by decide) rfl rfl rfl,
    (c4_alliance_matching_amended.2.2.1 dbUncorrected incUncorrected.data).mpr
      (by decide),
    c4_alliance_matching_amended.2.2.2 dbUncorrected incUncorrected.data
      (by decide)⟩

end Maneuver
